import Mathlib

/-!
Verification of the transaction data model and canonical encoding layer of
the `nil` repository (file `nil/internal/types/transaction.go`).

The Go source under `src/` is embedded shallowly:

* machine integers (`uint8`, `uint64`) become `Nat` with explicit `% 2 ^ w`
  where overflow matters;
* `Value` (an arbitrary-precision non-negative integer in the repository) is
  `Nat`;
* fallible Go functions returning `error` become `Except String`;
* the Go `panic` in `Transaction.toExternal` becomes `Option.none`.

Helpers that the repository defines outside the provided source file
(`BitFlags`, `Address.ShardId`, Keccak-256, `ToShardedHash`, the RLP
canonical encoding, ECDSA signing) are modelled from the specification;
each such definition carries a doc comment starting `Modelled from the
spec:`.
-/

namespace NilTypes

/-- Modelled from the spec: `BitFlags` (§4.1) is a generic bitset over a
small unsigned integer — here instantiated at `uint8`, so the bit value
lives below `2 ^ 8`.  The repository defines it outside the provided
source file. -/
structure BitFlags where
  Bits : Nat
deriving DecidableEq

/-- Modelled from the spec: bit query of `BitFlags` (§4.1, `GetBit(i)`). -/
def BitFlags.GetBit (b : BitFlags) (i : Nat) : Bool :=
  Nat.testBit b.Bits i

/-- Modelled from the spec: bit set of `BitFlags` (§4.1, `SetBit(i)`); the
shifted mask is truncated to the `uint8` width. -/
def BitFlags.SetBit (b : BitFlags) (i : Nat) : BitFlags :=
  ⟨b.Bits ||| ((1 <<< i) % 256)⟩

/-- Modelled from the spec: `Clear()` resets every bit (§4.1). -/
def BitFlags.Clear : BitFlags := ⟨0⟩

/-- `TransactionFlags` wraps `BitFlags` (source line 102). -/
structure TransactionFlags extends BitFlags
deriving DecidableEq

/-- `NewTransactionFlagsFromBits` (source line 106); the Go argument is a
`uint8`, hence the truncation. -/
def NewTransactionFlagsFromBits (bits : Nat) : TransactionFlags :=
  ⟨⟨bits % 256⟩⟩

/-- Flag bit positions (source lines 135-141). -/
def TransactionFlagInternal : Nat := 0

def TransactionFlagDeploy : Nat := 1

def TransactionFlagRefund : Nat := 2

def TransactionFlagBounce : Nat := 3

def TransactionFlagResponse : Nat := 4

/-- `NewTransactionFlags` builds a flag set from a list of bit positions
(source line 554). -/
def NewTransactionFlags (flags : List Nat) : TransactionFlags :=
  ⟨flags.foldl (fun b i => b.SetBit i) BitFlags.Clear⟩

def TransactionFlags.GetBit (m : TransactionFlags) (i : Nat) : Bool :=
  m.toBitFlags.GetBit i

def TransactionFlags.SetBit (m : TransactionFlags) (i : Nat) : TransactionFlags :=
  ⟨m.toBitFlags.SetBit i⟩

/-- `TransactionFlags.IsInternal` (source line 642). -/
def TransactionFlags.IsInternal (m : TransactionFlags) : Bool :=
  m.GetBit TransactionFlagInternal

/-- `TransactionFlags.IsDeploy` (source line 646). -/
def TransactionFlags.IsDeploy (m : TransactionFlags) : Bool :=
  m.GetBit TransactionFlagDeploy

/-- `TransactionFlags.IsRefund` (source line 650). -/
def TransactionFlags.IsRefund (m : TransactionFlags) : Bool :=
  m.GetBit TransactionFlagRefund

/-- `TransactionFlags.IsBounce` (source line 654). -/
def TransactionFlags.IsBounce (m : TransactionFlags) : Bool :=
  m.GetBit TransactionFlagBounce

/-- `TransactionFlags.IsResponse` (source line 658). -/
def TransactionFlags.IsResponse (m : TransactionFlags) : Bool :=
  m.GetBit TransactionFlagResponse

/-- `TransactionKind` (source lines 20-28). -/
inductive TransactionKind where
  | Execution
  | Deploy
  | Refund
  | Response
deriving DecidableEq

/-- `TransactionFlagsFromKind` (source lines 558-573): `Internal` iff the
flag, plus the bit matching the kind (`Execution` sets no kind bit). -/
def TransactionFlagsFromKind (internal : Bool) (kind : TransactionKind) : TransactionFlags :=
  let flags : List Nat := if internal then [TransactionFlagInternal] else []
  let kindFlags : List Nat :=
    match kind with
    | .Deploy => [TransactionFlagDeploy]
    | .Refund => [TransactionFlagRefund]
    | .Response => [TransactionFlagResponse]
    | .Execution => []
  NewTransactionFlags (flags ++ kindFlags)

/-- Modelled from the spec: `Address` (§3) is an opaque 20-byte identity
carrying a `ShardId()` projection; it is split here into the shard
projection and the remaining (intra-shard) part. -/
structure Address where
  shard : Nat
  interior : Nat
deriving DecidableEq

/-- Modelled from the spec: the shard projection of an address (§3). -/
def Address.ShardId (a : Address) : Nat := a.shard

/-- Modelled from the spec: the identifier of the main (coordination)
shard (glossary). -/
def MainShardId : Nat := 0

/-- Modelled from the spec: whether a shard id denotes the main shard. -/
def IsMainShard (s : Nat) : Bool := s == MainShardId

/-- `FeePack` (source lines 265-269); `Value` is embedded as `Nat`. -/
structure FeePack where
  FeeCredit : Nat
  MaxPriorityFeePerGas : Nat
  MaxFeePerGas : Nat
deriving DecidableEq

/-- `NewFeePack` (source lines 271-277): all fees zero. -/
def NewFeePack : FeePack := ⟨0, 0, 0⟩

/-- `TransactionDigest` (source lines 186-193): the signing prefix
`Flags, FeePack, To, ChainId, Seqno, Data`. -/
structure TransactionDigest extends FeePack where
  Flags : TransactionFlags
  To : Address
  ChainId : Nat
  Seqno : Nat
  Data : List Nat
deriving DecidableEq

/-- `TokenBalance` (§3 of the spec; the type lives outside the provided
source file): a pair of token id and amount. -/
structure TokenBalance where
  token : Nat
  balance : Nat
deriving DecidableEq

/-- `AsyncRequestInfo` (source lines 293-296). -/
structure AsyncRequestInfo where
  Id : Nat
  Caller : Address
deriving DecidableEq

/-- `Transaction` (source lines 204-217): extends the digest with the
fields the network may rewrite. -/
structure Transaction extends TransactionDigest where
  From : Address
  TxId : Nat
  RefundTo : Address
  BounceTo : Address
  Value : Nat
  RequestId : Nat
  Token : List TokenBalance
  RequestChain : List AsyncRequestInfo
  Signature : List Nat
deriving DecidableEq

/-- `ExternalTransaction` (source lines 225-233). -/
structure ExternalTransaction extends FeePack where
  Kind : TransactionKind
  To : Address
  ChainId : Nat
  Seqno : Nat
  Data : List Nat
  AuthData : List Nat
deriving DecidableEq

/-- `InternalTransactionPayload` (source lines 243-255); `ForwardKind` is
embedded as its numeric value. -/
structure InternalTransactionPayload where
  Kind : TransactionKind
  Bounce : Bool
  FeeCredit : Nat
  ForwardKind : Nat
  To : Address
  RefundTo : Address
  BounceTo : Address
  Value : Nat
  Data : List Nat
  RequestId : Nat
  Token : List TokenBalance
deriving DecidableEq

/-- `Transaction.IsInternal` (source line 422). -/
def Transaction.IsInternal (m : Transaction) : Bool :=
  m.Flags.GetBit TransactionFlagInternal

/-- `Transaction.IsExternal` (source line 426). -/
def Transaction.IsExternal (m : Transaction) : Bool :=
  !m.IsInternal

/-- `Transaction.IsBounce` (source line 434). -/
def Transaction.IsBounce (m : Transaction) : Bool :=
  m.Flags.IsBounce

/-- `Transaction.IsDeploy` (source line 438). -/
def Transaction.IsDeploy (m : Transaction) : Bool :=
  m.Flags.IsDeploy

/-- `Transaction.IsRefund` (source line 442). -/
def Transaction.IsRefund (m : Transaction) : Bool :=
  m.Flags.IsRefund

/-- `Transaction.IsResponse` (source line 446). -/
def Transaction.IsResponse (m : Transaction) : Bool :=
  m.Flags.IsResponse

/-- `Transaction.IsRequestOrResponse` (source line 454): `RequestId != 0`. -/
def Transaction.IsRequestOrResponse (m : Transaction) : Bool :=
  m.RequestId != 0

/-- The role counter computed inside `Transaction.VerifyFlags` for internal
transactions (source lines 397-409). -/
def Transaction.internalRoleNum (m : Transaction) : Nat :=
  (if m.IsDeploy then 1 else 0) + (if m.IsRefund then 1 else 0) +
    (if m.IsBounce then 1 else 0) + (if m.IsRequestOrResponse then 1 else 0)

/-- The trailing main-shard gate of `Transaction.VerifyFlags`
(source lines 416-419). -/
def Transaction.verifyMainShard (m : Transaction) : Except String Unit :=
  if IsMainShard m.To.ShardId && !(IsMainShard m.From.ShardId) then
    Except.error "transaction to main shard is not allowed from a regular shard"
  else
    Except.ok ()

/-- `Transaction.VerifyFlags` (source lines 395-420). -/
def Transaction.VerifyFlags (m : Transaction) : Except String Unit :=
  if m.IsInternal then
    if m.internalRoleNum > 1 then
      Except.error "internal transaction cannot be deploy, refund, bounce or async at the same time"
    else
      m.verifyMainShard
  else if m.IsRefund || m.IsBounce || m.IsRequestOrResponse then
    Except.error "external transaction cannot be bounce, refund or async"
  else
    m.verifyMainShard

/-- `Transaction.TransactionGasPrice` (source lines 462-473); `Value`
arithmetic is `Nat` arithmetic and the Go error becomes `Except.error`. -/
def Transaction.TransactionGasPrice (m : Transaction) (baseFeePerGas : Nat) :
    Except String Nat :=
  let gasPrice := baseFeePerGas + m.MaxPriorityFeePerGas
  if m.MaxFeePerGas ≠ 0 ∧ gasPrice > m.MaxFeePerGas then
    if baseFeePerGas > m.MaxFeePerGas then
      Except.error "max fee per gas is less than base fee per gas"
    else
      Except.ok m.MaxFeePerGas
  else
    Except.ok gasPrice

/-- `InternalTransactionPayload.ToTransaction` (source lines 475-500). -/
def InternalTransactionPayload.ToTransaction (m : InternalTransactionPayload)
    (from_ : Address) (seqno : Nat) : Transaction :=
  let txn : Transaction :=
    { Flags := TransactionFlagsFromKind true m.Kind
      To := m.To
      Data := m.Data
      FeeCredit := m.FeeCredit
      MaxPriorityFeePerGas := 0
      MaxFeePerGas := 0
      ChainId := 0
      Seqno := seqno
      RefundTo := m.RefundTo
      BounceTo := m.BounceTo
      From := from_
      TxId := 0
      Value := m.Value
      Token := m.Token
      RequestId := m.RequestId
      RequestChain := []
      Signature := [] }
  if m.Bounce then
    { txn with Flags := txn.Flags.SetBit TransactionFlagBounce }
  else
    txn

/-- `Transaction.toExternal` (source lines 371-393); the Go `panic` on an
internal transaction is modelled as `Option.none`. -/
def Transaction.toExternal (m : Transaction) : Option ExternalTransaction :=
  if m.IsInternal then
    none
  else
    let kind : TransactionKind :=
      if m.IsDeploy then .Deploy
      else if m.IsRefund then .Refund
      else .Execution
    some
      { Kind := kind
        toFeePack := m.toFeePack
        To := m.To
        ChainId := m.ChainId
        Seqno := m.Seqno
        Data := m.Data
        AuthData := m.Signature }

/-- Injective encoding of a byte/element list into a `Nat`; part of the
model of the canonical RLP encoding (spec §6), which the repository
implements outside the provided source file. -/
def encodeList : List Nat → Nat
  | [] => 0
  | x :: xs => Nat.pair x (encodeList xs) + 1

/-- Modelled from the spec: the canonical encoding of an `Address` (§6);
injective tupling of the shard projection and the intra-shard part. -/
def encodeAddress (a : Address) : Nat :=
  Nat.pair a.shard a.interior

/-- Modelled from the spec: the canonical encoding of a `FeePack`, fields
in declaration order (§6). -/
def encodeFeePack (f : FeePack) : Nat :=
  Nat.pair f.FeeCredit (Nat.pair f.MaxPriorityFeePerGas f.MaxFeePerGas)

/-- Modelled from the spec: the canonical encoding of a
`TransactionDigest` (§4.3, §6) — an ordered, tag-free, injective
serialization of `Flags, FeePack, To, ChainId, Seqno, Data`. -/
def encodeDigest (d : TransactionDigest) : Nat :=
  Nat.pair d.Flags.Bits
    (Nat.pair (encodeFeePack d.toFeePack)
      (Nat.pair (encodeAddress d.To)
        (Nat.pair d.ChainId (Nat.pair d.Seqno (encodeList d.Data)))))

/-- Modelled from the spec: the canonical encoding of a full
`Transaction`, digest prefix first, remaining fields in declaration order
(§6). -/
def encodeTransaction (m : Transaction) : Nat :=
  Nat.pair (encodeDigest m.toTransactionDigest)
    (Nat.pair (encodeAddress m.From)
      (Nat.pair m.TxId
        (Nat.pair (encodeAddress m.RefundTo)
          (Nat.pair (encodeAddress m.BounceTo)
            (Nat.pair m.Value
              (Nat.pair m.RequestId
                (Nat.pair (encodeList (m.Token.map fun tb => Nat.pair tb.token tb.balance))
                  (Nat.pair (encodeList (m.RequestChain.map fun r => Nat.pair r.Id (encodeAddress r.Caller)))
                    (encodeList m.Signature)))))))))

/-- Modelled from the spec: the canonical encoding of an
`ExternalTransaction`, fields in declaration order (§6). -/
def encodeExternalTransaction (m : ExternalTransaction) : Nat :=
  Nat.pair (match m.Kind with
    | .Execution => 0
    | .Deploy => 1
    | .Refund => 2
    | .Response => 3)
    (Nat.pair (encodeFeePack m.toFeePack)
      (Nat.pair (encodeAddress m.To)
        (Nat.pair m.ChainId
          (Nat.pair m.Seqno (Nat.pair (encodeList m.Data) (encodeList m.AuthData))))))

/-- Modelled from the spec: Keccak-256 over canonical bytes (§3, §6).  The
spec's hash properties (e.g. property 9) treat distinct inputs as
yielding distinct digests, so the hash is idealised as an injective
function of the canonical encoding. -/
def Keccak (input : Nat) : Nat := input

/-- Modelled from the spec: `ToShardedHash` (§6) embeds the destination
shard id into the digest so that two transactions with different
destination shards never share a hash. -/
def ToShardedHash (digest : Nat) (shardId : Nat) : Nat :=
  Nat.pair shardId digest

/-- `ExternalTransaction.Hash` (source lines 502-504). -/
def ExternalTransaction.Hash (m : ExternalTransaction) : Nat :=
  ToShardedHash (Keccak (encodeExternalTransaction m)) m.To.ShardId

/-- `Transaction.Hash` (source lines 355-360): external transactions hash
through their external form.  The `none` branch is unreachable:
`toExternal` succeeds exactly when the transaction is external. -/
def Transaction.Hash (m : Transaction) : Nat :=
  if m.IsExternal then
    match m.toExternal with
    | some ext => ext.Hash
    | none => 0
  else
    ToShardedHash (Keccak (encodeTransaction m)) m.To.ShardId

/-- `Transaction.SigningHash` (source lines 534-536): Keccak of the
canonical bytes of the digest prefix.  The Go error return is always
`nil` here, so the model is total. -/
def Transaction.SigningHash (m : Transaction) : Nat :=
  Keccak (encodeDigest m.toTransactionDigest)

/-- `ExternalTransaction.SigningHash` (source lines 506-517): Keccak of a
digest built from the external transaction's fields with flags
`TransactionFlagsFromKind(false, Kind)`. -/
def ExternalTransaction.SigningHash (m : ExternalTransaction) : Nat :=
  Keccak (encodeDigest
    { Flags := TransactionFlagsFromKind false m.Kind
      toFeePack := m.toFeePack
      Seqno := m.Seqno
      To := m.To
      Data := m.Data
      ChainId := m.ChainId })

/-- `ExternalTransaction.ToTransaction` (source lines 519-532): promotes
to a `Transaction` with `From := To` and `Signature := AuthData`. -/
def ExternalTransaction.ToTransaction (m : ExternalTransaction) : Transaction :=
  { Flags := TransactionFlagsFromKind false m.Kind
    To := m.To
    ChainId := m.ChainId
    Seqno := m.Seqno
    Data := m.Data
    toFeePack := m.toFeePack
    From := m.To
    Signature := m.AuthData
    TxId := 0
    RefundTo := ⟨0, 0⟩
    BounceTo := ⟨0, 0⟩
    Value := 0
    RequestId := 0
    Token := []
    RequestChain := [] }

/-- Modelled from the spec: secp256k1 ECDSA signing over a signing hash
(§6); opaque but deterministic in the hash and the key. -/
def EcdsaSign (hash : Nat) (key : Nat) : List Nat :=
  [Nat.pair hash key]

/-- `ExternalTransaction.Sign` (source lines 538-552): sets `AuthData` to
the signature over the signing hash. -/
def ExternalTransaction.Sign (m : ExternalTransaction) (key : Nat) : ExternalTransaction :=
  { m with AuthData := EcdsaSign m.SigningHash key }

/-- `Transaction.Sign` (source lines 362-369): converts to the external
form (panicking — `none` — on internal transactions), signs it, and
copies `AuthData` into `Signature`. -/
def Transaction.Sign (m : Transaction) (key : Nat) : Option Transaction :=
  (m.toExternal).map fun ext => { m with Signature := (ext.Sign key).AuthData }

/-- The token list produced by `TransactionFlags.MarshalJSON`
(source lines 597-617): exactly one of `Internal`/`External`, then the
role tokens of the set bits, in the fixed source order.  The surrounding
JSON array syntax of the Go stdlib is elided: the tokens are the
content. -/
def TransactionFlags.marshalTokens (m : TransactionFlags) : List String :=
  [if m.IsInternal then "Internal" else "External"] ++
    (if m.IsDeploy then ["Deploy"] else []) ++
    (if m.IsRefund then ["Refund"] else []) ++
    (if m.IsBounce then ["Bounce"] else []) ++
    (if m.IsResponse then ["Response"] else [])

/-- One step of the token loop of `TransactionFlags.UnmarshalJSON`
(source lines 625-638): a recognized token sets its bit, an unknown
token is ignored. -/
def applyFlagToken (m : TransactionFlags) (v : String) : TransactionFlags :=
  if v = "Internal" then m.SetBit TransactionFlagInternal
  else if v = "Deploy" then m.SetBit TransactionFlagDeploy
  else if v = "Refund" then m.SetBit TransactionFlagRefund
  else if v = "Bounce" then m.SetBit TransactionFlagBounce
  else if v = "Response" then m.SetBit TransactionFlagResponse
  else m

/-- `TransactionFlags.UnmarshalJSON` (source lines 619-640) in
state-passing form.  The input models `json.Unmarshal` into `[]string`:
`none` is a parse failure (malformed JSON or not an array of strings),
`some s` the parsed token list.  The receiver is cleared first (line
620); on parse failure the method returns the error with the receiver in
its cleared state, otherwise it folds the tokens.  The result pairs the
final receiver state with the optional error. -/
def TransactionFlags.unmarshalJSON (m : TransactionFlags)
    (input : Option (List String)) : TransactionFlags × Option String :=
  let cleared : TransactionFlags := ⟨BitFlags.Clear⟩
  match input with
  | none => (cleared, some "json unmarshal error")
  | some s => (s.foldl applyFlagToken cleared, none)

/-- The receiver state after a successful `UnmarshalJSON` on token list
`s`: clear, then fold the tokens (source lines 619-640). -/
def TransactionFlags.unmarshalTokens (s : List String) : TransactionFlags :=
  s.foldl applyFlagToken ⟨BitFlags.Clear⟩

/-! ## Sample values used by witnesses -/

/-- An address on regular shard 1. -/
def sampleAddr : Address := ⟨1, 5⟩

/-- An address on the main shard. -/
def sampleMainAddr : Address := ⟨MainShardId, 9⟩

/-- A plain external execution transaction between shard-1 addresses. -/
def sampleTxn : Transaction :=
  { Flags := NewTransactionFlagsFromBits 0
    To := sampleAddr
    ChainId := 1
    Seqno := 2
    Data := [1, 2]
    FeeCredit := 0
    MaxPriorityFeePerGas := 0
    MaxFeePerGas := 0
    From := sampleAddr
    TxId := 0
    RefundTo := sampleAddr
    BounceTo := sampleAddr
    Value := 0
    RequestId := 0
    Token := []
    RequestChain := []
    Signature := [7] }

/-! ## Claims -/

theorem verifyMainShard_error_iff (t : Transaction) :
    (∃ e, t.verifyMainShard = Except.error e) ↔
      (IsMainShard t.To.ShardId = true ∧ IsMainShard t.From.ShardId = false) := by
  unfold Transaction.verifyMainShard
  split
  case isTrue h =>
    simp only [Bool.and_eq_true, Bool.not_eq_true'] at h
    simp [h]
  case isFalse h =>
    simp only [Bool.and_eq_true, Bool.not_eq_true'] at h
    constructor
    · rintro ⟨e, he⟩
      exact absurd he (by simp)
    · intro hc
      exact absurd (And.intro hc.1 hc.2) h

/-- C1: `Transaction.VerifyFlags` returns an error exactly when (a) the
transaction is internal and at least two of {Deploy, Refund, Bounce,
RequestId ≠ 0} hold, or (b) it is not internal and any of {Refund,
Bounce, RequestId ≠ 0} holds, or (c) its `To` shard is the main shard
while its `From` shard is not. -/
theorem verifyFlags_error_iff (t : Transaction) :
    (∃ e, t.VerifyFlags = Except.error e) ↔
      ((t.IsInternal = true ∧ 2 ≤ t.internalRoleNum) ∨
        (t.IsInternal = false ∧
          (t.IsRefund = true ∨ t.IsBounce = true ∨ t.IsRequestOrResponse = true)) ∨
        (IsMainShard t.To.ShardId = true ∧ IsMainShard t.From.ShardId = false)) := by
  unfold Transaction.VerifyFlags
  by_cases hI : t.IsInternal = true
  · rw [if_pos hI]
    by_cases hN : t.internalRoleNum > 1
    · rw [if_pos hN]
      have h2 : (2 : Nat) ≤ t.internalRoleNum := hN
      simp [hI, h2]
    · rw [if_neg hN]
      rw [verifyMainShard_error_iff t]
      have hN2 : ¬(2 ≤ t.internalRoleNum) := hN
      simp [hI, hN2]
  · rw [if_neg hI]
    have hI' : t.IsInternal = false := by
      revert hI
      cases t.IsInternal <;> simp
    by_cases hR : (t.IsRefund || t.IsBounce || t.IsRequestOrResponse) = true
    · rw [if_pos hR]
      simp only [Bool.or_eq_true] at hR
      simp only [hI']
      simp
      tauto
    · rw [if_neg hR]
      rw [verifyMainShard_error_iff t]
      simp only [Bool.or_eq_true] at hR
      push_neg at hR
      simp only [Bool.not_eq_true] at hR
      simp [hI', hR.1.1, hR.1.2, hR.2]

/-- Witness for C1: an external bounce transaction is rejected. -/
theorem verifyFlags_error_iff_witness :
    ∃ e, Transaction.VerifyFlags
      { sampleTxn with Flags := NewTransactionFlagsFromBits 8 } = Except.error e :=
  (verifyFlags_error_iff { sampleTxn with Flags := NewTransactionFlagsFromBits 8 }).mpr
    (Or.inr (Or.inl (by constructor <;> decide)))

/-- C2: `TransactionGasPrice(b)` returns `b + MaxPriorityFeePerGas` when
`MaxFeePerGas = 0`; fails with the fee-below-base error when
`MaxFeePerGas ≠ 0` and `b > MaxFeePerGas`; and otherwise returns
`min (b + MaxPriorityFeePerGas) MaxFeePerGas`. -/
theorem transactionGasPrice_spec (t : Transaction) (b : Nat) :
    t.TransactionGasPrice b =
      if t.MaxFeePerGas = 0 then
        Except.ok (b + t.MaxPriorityFeePerGas)
      else if t.MaxFeePerGas < b then
        Except.error "max fee per gas is less than base fee per gas"
      else
        Except.ok (min (b + t.MaxPriorityFeePerGas) t.MaxFeePerGas) := by
  unfold Transaction.TransactionGasPrice
  by_cases h0 : t.MaxFeePerGas = 0
  · simp [h0]
  · by_cases hgt : t.MaxFeePerGas < b + t.MaxPriorityFeePerGas
    · by_cases hb : t.MaxFeePerGas < b
      · simp [h0, hgt, hb]
      · simp [h0, hgt, hb]
        exact le_of_lt hgt
    · have hle : b + t.MaxPriorityFeePerGas ≤ t.MaxFeePerGas := not_lt.mp hgt
      have hnb : ¬t.MaxFeePerGas < b := by omega
      simp [h0, hgt, hnb]
      exact hle

/-- Witness for C2: `FeePack{priority = 2, max = 5}` at base fee 4 clamps
the gas price to 5. -/
theorem transactionGasPrice_spec_witness :
    Transaction.TransactionGasPrice
      { sampleTxn with MaxPriorityFeePerGas := 2, MaxFeePerGas := 5 } 4 =
      Except.ok 5 := by
  rw [transactionGasPrice_spec]
  rfl

/-- A payload that combines the Deploy kind with the Bounce flag. -/
def sampleDeployBouncePayload : InternalTransactionPayload :=
  { Kind := .Deploy
    Bounce := true
    FeeCredit := 3
    ForwardKind := 0
    To := sampleAddr
    RefundTo := sampleAddr
    BounceTo := sampleAddr
    Value := 1
    Data := [9]
    RequestId := 0
    Token := [] }

/-- A benign execution payload. -/
def sampleExecPayload : InternalTransactionPayload :=
  { Kind := .Execution
    Bounce := false
    FeeCredit := 3
    ForwardKind := 0
    To := sampleAddr
    RefundTo := sampleAddr
    BounceTo := sampleAddr
    Value := 1
    Data := [9]
    RequestId := 0
    Token := [] }

theorem roleNum_of_payload (p : InternalTransactionPayload) (from_ : Address) (seqno : Nat) :
    (p.ToTransaction from_ seqno).internalRoleNum =
      (if p.Kind = .Deploy then 1 else 0) + (if p.Kind = .Refund then 1 else 0) +
        (if p.Bounce then 1 else 0) + (if p.RequestId ≠ 0 then 1 else 0) := by
  unfold Transaction.internalRoleNum Transaction.IsDeploy Transaction.IsRefund
    Transaction.IsBounce Transaction.IsRequestOrResponse
  cases hk : p.Kind <;> cases hb : p.Bounce <;>
    by_cases hr : p.RequestId = 0 <;>
      simp [InternalTransactionPayload.ToTransaction, hk, hb, hr,
        TransactionFlags.IsDeploy, TransactionFlags.IsRefund,
        TransactionFlags.IsBounce, TransactionFlags.GetBit, TransactionFlags.SetBit,
        BitFlags.GetBit, BitFlags.SetBit, BitFlags.Clear, TransactionFlagsFromKind,
        NewTransactionFlags, TransactionFlagInternal, TransactionFlagDeploy,
        TransactionFlagRefund, TransactionFlagBounce, TransactionFlagResponse] <;>
      decide

/-- Counterexample to C3 as stated: promoting a payload with
`Kind = Deploy` and `Bounce = true` yields two role bits, so the
resulting transaction violates the internal flag invariant and is
rejected by `VerifyFlags`. -/
theorem internalPayload_toTransaction_counterexample :
    Transaction.VerifyFlags (sampleDeployBouncePayload.ToTransaction sampleAddr 7) =
        Except.error
          "internal transaction cannot be deploy, refund, bounce or async at the same time" ∧
      ¬(sampleDeployBouncePayload.ToTransaction sampleAddr 7).internalRoleNum ≤ 1 :=
  ⟨rfl, by decide⟩

/-- C3 (amended): `p.ToTransaction(from, seqno)` preserves `To, Data,
Value, Token, RequestId, RefundTo, BounceTo`, uses the given `Seqno` and
`From`, sets `FeeCredit = p.FeeCredit` with both gas-fee caps zero, sets
the Internal bit, and sets the Bounce bit iff `p.Bounce`; its flags
satisfy the internal role invariant checked by `VerifyFlags` (at most
one of {Deploy, Refund, Bounce, request-or-response}) if and only if at
most one of {`p.Kind = Deploy` or `p.Kind = Refund`, `p.Bounce`,
`p.RequestId ≠ 0`} holds. -/
theorem internalPayload_toTransaction_spec (p : InternalTransactionPayload)
    (from_ : Address) (seqno : Nat) :
    (p.ToTransaction from_ seqno).To = p.To ∧
      (p.ToTransaction from_ seqno).Data = p.Data ∧
      (p.ToTransaction from_ seqno).Value = p.Value ∧
      (p.ToTransaction from_ seqno).Token = p.Token ∧
      (p.ToTransaction from_ seqno).RequestId = p.RequestId ∧
      (p.ToTransaction from_ seqno).RefundTo = p.RefundTo ∧
      (p.ToTransaction from_ seqno).BounceTo = p.BounceTo ∧
      (p.ToTransaction from_ seqno).Seqno = seqno ∧
      (p.ToTransaction from_ seqno).From = from_ ∧
      (p.ToTransaction from_ seqno).FeeCredit = p.FeeCredit ∧
      (p.ToTransaction from_ seqno).MaxPriorityFeePerGas = 0 ∧
      (p.ToTransaction from_ seqno).MaxFeePerGas = 0 ∧
      (p.ToTransaction from_ seqno).IsInternal = true ∧
      (p.ToTransaction from_ seqno).IsBounce = p.Bounce ∧
      ((p.ToTransaction from_ seqno).internalRoleNum ≤ 1 ↔
        (if p.Kind = .Deploy ∨ p.Kind = .Refund then 1 else 0) +
            (if p.Bounce then 1 else 0) + (if p.RequestId ≠ 0 then 1 else 0) ≤ 1) := by
  refine ⟨?_, ?_, ?_, ?_, ?_, ?_, ?_, ?_, ?_, ?_, ?_, ?_, ?_, ?_, ?_⟩
  all_goals try
    (cases hk : p.Kind <;> cases hb : p.Bounce <;>
      simp [InternalTransactionPayload.ToTransaction, hk, hb, Transaction.IsInternal,
        Transaction.IsBounce, TransactionFlags.IsBounce, TransactionFlags.GetBit,
        TransactionFlags.SetBit, BitFlags.GetBit, BitFlags.SetBit, BitFlags.Clear,
        TransactionFlagsFromKind, NewTransactionFlags, TransactionFlagInternal,
        TransactionFlagDeploy, TransactionFlagRefund, TransactionFlagBounce,
        TransactionFlagResponse] <;> decide)
  rw [roleNum_of_payload p from_ seqno]
  cases hk : p.Kind <;> by_cases hb : p.Bounce = true <;>
    by_cases hr : p.RequestId = 0 <;> simp [hk, hb, hr]

/-- Witness for C3 (amended): the promotion of a benign execution payload
preserves its destination. -/
theorem internalPayload_toTransaction_spec_witness :
    (sampleExecPayload.ToTransaction sampleAddr 7).To = sampleExecPayload.To :=
  (internalPayload_toTransaction_spec sampleExecPayload sampleAddr 7).1

theorem encodeList_injective : Function.Injective encodeList := by
  intro xs
  induction xs with
  | nil =>
    intro ys h
    cases ys with
    | nil => rfl
    | cons y ys => simp [encodeList] at h
  | cons x xs ih =>
    intro ys h
    cases ys with
    | nil => simp [encodeList] at h
    | cons y ys =>
      simp only [encodeList, Nat.add_right_cancel_iff, Nat.pair_eq_pair] at h
      rw [h.1, ih h.2]

theorem flags_bits_inj {a b : TransactionFlags} (h : a.Bits = b.Bits) : a = b := by
  obtain ⟨⟨x⟩⟩ := a
  obtain ⟨⟨y⟩⟩ := b
  cases h
  rfl

theorem encodeDigest_injective : Function.Injective encodeDigest := by
  intro d1 d2 h
  obtain ⟨⟨fc1, mp1, mf1⟩, fl1, to1, c1, s1, dat1⟩ := d1
  obtain ⟨⟨fc2, mp2, mf2⟩, fl2, to2, c2, s2, dat2⟩ := d2
  obtain ⟨sh1, i1⟩ := to1
  obtain ⟨sh2, i2⟩ := to2
  simp only [encodeDigest, encodeFeePack, encodeAddress, Nat.pair_eq_pair] at h
  obtain ⟨hf, ⟨h1, h2, h3⟩, ⟨h4, h5⟩, h6, h7, h8⟩ := h
  cases flags_bits_inj hf
  cases h1
  cases h2
  cases h3
  cases h4
  cases h5
  cases h6
  cases h7
  cases encodeList_injective h8
  rfl

/-- C4: `SigningHash` is a function of exactly the `TransactionDigest`
fields: transactions agreeing on `Flags, FeePack, To, ChainId, Seqno,
Data` share a signing hash regardless of their other fields, and
transactions whose digests differ (a change to any of the six fields)
have distinct signing hashes. -/
theorem signingHash_digest_only (t1 t2 : Transaction) :
    (t1.Flags = t2.Flags → t1.toFeePack = t2.toFeePack → t1.To = t2.To →
      t1.ChainId = t2.ChainId → t1.Seqno = t2.Seqno → t1.Data = t2.Data →
      t1.SigningHash = t2.SigningHash) ∧
    (t1.toTransactionDigest ≠ t2.toTransactionDigest →
      t1.SigningHash ≠ t2.SigningHash) := by
  constructor
  · intro hf hfp hto hc hs hd
    unfold Transaction.SigningHash
    obtain ⟨d1, _, _, _, _, _, _, _, _, _⟩ := t1
    obtain ⟨d2, _, _, _, _, _, _, _, _, _⟩ := t2
    obtain ⟨fp1, fl1, to1, c1, s1, dat1⟩ := d1
    obtain ⟨fp2, fl2, to2, c2, s2, dat2⟩ := d2
    simp only at hf hfp hto hc hs hd
    subst hf hfp hto hc hs hd
    rfl
  · intro hne heq
    unfold Transaction.SigningHash Keccak at heq
    exact hne (encodeDigest_injective heq)

/-- Witness for C4: changing `From` and `Value` keeps the signing hash;
changing `Seqno` changes it. -/
theorem signingHash_digest_only_witness :
    Transaction.SigningHash sampleTxn =
        Transaction.SigningHash { sampleTxn with From := sampleMainAddr, Value := 5 } ∧
      Transaction.SigningHash sampleTxn ≠
        Transaction.SigningHash { sampleTxn with Seqno := 3 } :=
  ⟨(signingHash_digest_only sampleTxn
      { sampleTxn with From := sampleMainAddr, Value := 5 }).1 rfl rfl rfl rfl rfl rfl,
    (signingHash_digest_only sampleTxn { sampleTxn with Seqno := 3 }).2 (by decide)⟩

/-- A sample external execution transaction in external form. -/
def sampleExt : ExternalTransaction :=
  { Kind := .Execution
    FeeCredit := 0
    MaxPriorityFeePerGas := 0
    MaxFeePerGas := 0
    To := sampleAddr
    ChainId := 1
    Seqno := 2
    Data := [1, 2]
    AuthData := [9, 9] }

/-- C5: for a transaction without the Internal bit, `Hash()` is the hash
of the `ExternalTransaction` produced by `toExternal()`, namely
`ToShardedHash(Keccak(canonical bytes), To.ShardId())`. -/
theorem transaction_hash_external (t : Transaction) (h : t.IsInternal = false) :
    ∃ ext, t.toExternal = some ext ∧
      t.Hash = ext.Hash ∧
      ext.Hash = ToShardedHash (Keccak (encodeExternalTransaction ext)) ext.To.ShardId ∧
      ext.To = t.To := by
  have hext : t.toExternal = some
      { Kind := if t.IsDeploy then .Deploy else if t.IsRefund then .Refund else .Execution
        toFeePack := t.toFeePack
        To := t.To
        ChainId := t.ChainId
        Seqno := t.Seqno
        Data := t.Data
        AuthData := t.Signature } := by
    simp [Transaction.toExternal, h]
  refine ⟨_, hext, ?_, rfl, rfl⟩
  simp [Transaction.Hash, Transaction.IsExternal, h, hext]

/-- Witness for C5: the sample external transaction hashes through its
external form. -/
theorem transaction_hash_external_witness :
    ∃ ext, sampleTxn.toExternal = some ext ∧
      sampleTxn.Hash = ext.Hash ∧
      ext.Hash = ToShardedHash (Keccak (encodeExternalTransaction ext)) ext.To.ShardId ∧
      ext.To = sampleTxn.To :=
  transaction_hash_external sampleTxn rfl

/-- C6: `ExternalTransaction.ToTransaction` gives flags
`TransactionFlagsFromKind(false, Kind)` (the zero flag byte for the
Execution kind), `From` equal to the placeholder `To`, `Signature` equal
to `AuthData`, and copies the digest fields `To, ChainId, Seqno, Data,
FeePack`. -/
theorem externalToTransaction_spec (x : ExternalTransaction) :
    x.ToTransaction.Flags = TransactionFlagsFromKind false x.Kind ∧
      x.ToTransaction.From = x.To ∧
      x.ToTransaction.Signature = x.AuthData ∧
      x.ToTransaction.To = x.To ∧
      x.ToTransaction.ChainId = x.ChainId ∧
      x.ToTransaction.Seqno = x.Seqno ∧
      x.ToTransaction.Data = x.Data ∧
      x.ToTransaction.toFeePack = x.toFeePack ∧
      (x.Kind = .Execution → x.ToTransaction.Flags = NewTransactionFlagsFromBits 0) := by
  refine ⟨rfl, rfl, rfl, rfl, rfl, rfl, rfl, rfl, ?_⟩
  intro hk
  show TransactionFlagsFromKind false x.Kind = NewTransactionFlagsFromBits 0
  rw [hk]
  rfl

/-- Witness for C6: promoting the sample execution transaction yields the
zero flag byte. -/
theorem externalToTransaction_spec_witness :
    (ExternalTransaction.ToTransaction sampleExt).Flags = NewTransactionFlagsFromBits 0 :=
  (externalToTransaction_spec sampleExt).2.2.2.2.2.2.2.2 rfl

/-- C7: `toExternal` panics (modelled `none`) exactly on internal
transactions — hence `Sign` does too — and on an external transaction it
yields the kind Deploy/Refund/Execution according to the flag bits,
never Response, with `AuthData` taken from `Signature`. -/
theorem toExternal_spec (t : Transaction) :
    (t.IsInternal = true → t.toExternal = none ∧ ∀ key, t.Sign key = none) ∧
      (t.IsInternal = false → ∃ ext, t.toExternal = some ext ∧
        ext.Kind = (if t.IsDeploy then TransactionKind.Deploy
          else if t.IsRefund then TransactionKind.Refund
          else TransactionKind.Execution) ∧
        ext.Kind ≠ TransactionKind.Response ∧
        ext.AuthData = t.Signature) := by
  constructor
  · intro h
    have hx : t.toExternal = none := by simp [Transaction.toExternal, h]
    exact ⟨hx, fun key => by simp [Transaction.Sign, hx]⟩
  · intro h
    refine ⟨{ Kind := if t.IsDeploy then .Deploy else if t.IsRefund then .Refund else .Execution
              toFeePack := t.toFeePack
              To := t.To
              ChainId := t.ChainId
              Seqno := t.Seqno
              Data := t.Data
              AuthData := t.Signature }, ?_, rfl, ?_, rfl⟩
    · simp [Transaction.toExternal, h]
    · by_cases hd : t.IsDeploy = true <;> by_cases hr : t.IsRefund = true <;>
        simp [hd, hr]

/-- Witness for C7: an internal execution transaction cannot be converted
or signed; the sample external transaction converts with the Execution
kind. -/
theorem toExternal_spec_witness :
    Transaction.toExternal { sampleTxn with Flags := NewTransactionFlagsFromBits 1 } = none ∧
      (∃ ext, sampleTxn.toExternal = some ext ∧
        ext.Kind = (if sampleTxn.IsDeploy then TransactionKind.Deploy
          else if sampleTxn.IsRefund then TransactionKind.Refund
          else TransactionKind.Execution) ∧
        ext.Kind ≠ TransactionKind.Response ∧
        ext.AuthData = sampleTxn.Signature) :=
  ⟨((toExternal_spec { sampleTxn with Flags := NewTransactionFlagsFromBits 1 }).1 rfl).1,
    (toExternal_spec sampleTxn).2 rfl⟩

/-- The flag bit contributed by one recognized token of
`UnmarshalJSON` (source lines 625-638); unknown tokens contribute
nothing. -/
def tokenBits (v : String) : Nat :=
  if v = "Internal" then 1
  else if v = "Deploy" then 2
  else if v = "Refund" then 4
  else if v = "Bounce" then 8
  else if v = "Response" then 16
  else 0

/-- The union of the flag bits of a token list. -/
def tokensBits : List String → Nat
  | [] => 0
  | v :: s => tokenBits v ||| tokensBits s

theorem applyFlagToken_bits (m : TransactionFlags) (v : String) :
    (applyFlagToken m v).Bits = m.Bits ||| tokenBits v := by
  unfold applyFlagToken tokenBits TransactionFlags.SetBit BitFlags.SetBit
    TransactionFlagInternal TransactionFlagDeploy TransactionFlagRefund
    TransactionFlagBounce TransactionFlagResponse
  split_ifs <;> norm_num [Nat.shiftLeft_eq]

theorem unmarshalTokens_bits (s : List String) :
    (TransactionFlags.unmarshalTokens s).Bits = tokensBits s := by
  suffices h : ∀ acc : TransactionFlags,
      (s.foldl applyFlagToken acc).Bits = acc.Bits ||| tokensBits s by
    simpa [TransactionFlags.unmarshalTokens, BitFlags.Clear] using h ⟨⟨0⟩⟩
  induction s with
  | nil =>
    intro acc
    simp [tokensBits]
  | cons v s ih =>
    intro acc
    simp only [List.foldl_cons, ih, applyFlagToken_bits, tokensBits]
    rw [Nat.or_assoc]

theorem tokenBits_testBit (v : String) :
    ((tokenBits v).testBit 0 = true ↔ v = "Internal") ∧
      ((tokenBits v).testBit 1 = true ↔ v = "Deploy") ∧
      ((tokenBits v).testBit 2 = true ↔ v = "Refund") ∧
      ((tokenBits v).testBit 3 = true ↔ v = "Bounce") ∧
      ((tokenBits v).testBit 4 = true ↔ v = "Response") ∧
      tokenBits v < 32 := by
  unfold tokenBits
  split_ifs with h1 h2 h3 h4 h5
  · subst h1
    refine ⟨?_, ?_, ?_, ?_, ?_, ?_⟩ <;> decide
  · subst h2
    refine ⟨?_, ?_, ?_, ?_, ?_, ?_⟩ <;> decide
  · subst h3
    refine ⟨?_, ?_, ?_, ?_, ?_, ?_⟩ <;> decide
  · subst h4
    refine ⟨?_, ?_, ?_, ?_, ?_, ?_⟩ <;> decide
  · subst h5
    refine ⟨?_, ?_, ?_, ?_, ?_, ?_⟩ <;> decide
  · exact ⟨iff_of_false (by decide) h1, iff_of_false (by decide) h2,
      iff_of_false (by decide) h3, iff_of_false (by decide) h4,
      iff_of_false (by decide) h5, by decide⟩

theorem tokensBits_mem (s : List String) :
    ((tokensBits s).testBit 0 = true ↔ "Internal" ∈ s) ∧
      ((tokensBits s).testBit 1 = true ↔ "Deploy" ∈ s) ∧
      ((tokensBits s).testBit 2 = true ↔ "Refund" ∈ s) ∧
      ((tokensBits s).testBit 3 = true ↔ "Bounce" ∈ s) ∧
      ((tokensBits s).testBit 4 = true ↔ "Response" ∈ s) ∧
      tokensBits s < 32 := by
  induction s with
  | nil =>
    exact ⟨by decide, by decide, by decide, by decide, by decide, by decide⟩
  | cons v s ih =>
    obtain ⟨i0, i1, i2, i3, i4, ilt⟩ := ih
    obtain ⟨t0, t1, t2, t3, t4, tlt⟩ := tokenBits_testBit v
    refine ⟨?_, ?_, ?_, ?_, ?_, ?_⟩
    · simp only [tokensBits, Nat.testBit_or, Bool.or_eq_true, t0, i0, List.mem_cons]
      exact or_congr eq_comm Iff.rfl
    · simp only [tokensBits, Nat.testBit_or, Bool.or_eq_true, t1, i1, List.mem_cons]
      exact or_congr eq_comm Iff.rfl
    · simp only [tokensBits, Nat.testBit_or, Bool.or_eq_true, t2, i2, List.mem_cons]
      exact or_congr eq_comm Iff.rfl
    · simp only [tokensBits, Nat.testBit_or, Bool.or_eq_true, t3, i3, List.mem_cons]
      exact or_congr eq_comm Iff.rfl
    · simp only [tokensBits, Nat.testBit_or, Bool.or_eq_true, t4, i4, List.mem_cons]
      exact or_congr eq_comm Iff.rfl
    · have h1 : tokenBits v < 2 ^ 5 := by simpa using tlt
      have h2 : tokensBits s < 2 ^ 5 := by simpa using ilt
      have := Nat.or_lt_two_pow h1 h2
      simpa [tokensBits] using this

theorem marshal_roundtrip_all : ∀ b : Fin 32,
    TransactionFlags.unmarshalTokens
        (TransactionFlags.marshalTokens ⟨⟨b.val⟩⟩) = ⟨⟨b.val⟩⟩ ∧
      TransactionFlags.marshalTokens ⟨⟨b.val⟩⟩ =
        (if (⟨⟨b.val⟩⟩ : TransactionFlags).IsInternal then "Internal" else "External") ::
          List.filter (fun tok =>
            (tok == "Deploy" && (⟨⟨b.val⟩⟩ : TransactionFlags).IsDeploy) ||
              (tok == "Refund" && (⟨⟨b.val⟩⟩ : TransactionFlags).IsRefund) ||
              (tok == "Bounce" && (⟨⟨b.val⟩⟩ : TransactionFlags).IsBounce) ||
              (tok == "Response" && (⟨⟨b.val⟩⟩ : TransactionFlags).IsResponse))
            ["Deploy", "Refund", "Bounce", "Response"] := by
  decide

/-- C8: for a flag value with the reserved bits (5-7) clear, marshalling
emits exactly one of `Internal`/`External` followed by the role tokens
of the set bits in the fixed order `Deploy, Refund, Bounce, Response`,
and unmarshalling that output reproduces the bitset; unmarshalling any
token list sets exactly the bits whose token occurs in it, in any order,
ignoring unknown tokens. -/
theorem flags_json_spec (m : TransactionFlags) (s : List String) :
    (m.Bits < 32 →
      TransactionFlags.unmarshalTokens m.marshalTokens = m ∧
        m.marshalTokens =
          (if m.IsInternal then "Internal" else "External") ::
            List.filter (fun tok =>
              (tok == "Deploy" && m.IsDeploy) || (tok == "Refund" && m.IsRefund) ||
                (tok == "Bounce" && m.IsBounce) || (tok == "Response" && m.IsResponse))
              ["Deploy", "Refund", "Bounce", "Response"]) ∧
      (((TransactionFlags.unmarshalTokens s).IsInternal = true ↔ "Internal" ∈ s) ∧
        ((TransactionFlags.unmarshalTokens s).IsDeploy = true ↔ "Deploy" ∈ s) ∧
        ((TransactionFlags.unmarshalTokens s).IsRefund = true ↔ "Refund" ∈ s) ∧
        ((TransactionFlags.unmarshalTokens s).IsBounce = true ↔ "Bounce" ∈ s) ∧
        ((TransactionFlags.unmarshalTokens s).IsResponse = true ↔ "Response" ∈ s) ∧
        (TransactionFlags.unmarshalTokens s).Bits < 32) := by
  constructor
  · intro hlt
    exact marshal_roundtrip_all ⟨m.Bits, hlt⟩
  · have hb := unmarshalTokens_bits s
    have hmem := tokensBits_mem s
    simp only [TransactionFlags.IsInternal, TransactionFlags.IsDeploy,
      TransactionFlags.IsRefund, TransactionFlags.IsBounce, TransactionFlags.IsResponse,
      TransactionFlags.GetBit, BitFlags.GetBit, TransactionFlagInternal,
      TransactionFlagDeploy, TransactionFlagRefund, TransactionFlagBounce,
      TransactionFlagResponse, hb]
    exact hmem

/-- Witness for C8: `{External, Bounce}` marshals to
`["External", "Bounce"]` and round-trips; decoding a shuffled list with
an unknown token gives `{Internal, Bounce}`. -/
theorem flags_json_spec_witness :
    TransactionFlags.unmarshalTokens
        (TransactionFlags.marshalTokens (NewTransactionFlagsFromBits 8)) =
        NewTransactionFlagsFromBits 8 ∧
      ((TransactionFlags.unmarshalTokens ["Bounce", "zzz", "Internal"]).IsBounce = true ↔
        "Bounce" ∈ ["Bounce", "zzz", "Internal"]) :=
  ⟨((flags_json_spec (NewTransactionFlagsFromBits 8) []).1 (by decide)).1,
    ((flags_json_spec (NewTransactionFlagsFromBits 8)
      ["Bounce", "zzz", "Internal"]).2).2.2.2.1⟩

/-- Counterexample to C9 as stated: a receiver holding bit value 1 that
is fed malformed input comes back cleared (bits 0), not with its
pre-call value. -/
theorem unmarshalJSON_counterexample :
    (∃ e, (TransactionFlags.unmarshalJSON (NewTransactionFlagsFromBits 1) none).2 = some e) ∧
      (TransactionFlags.unmarshalJSON (NewTransactionFlagsFromBits 1) none).1 ≠
        NewTransactionFlagsFromBits 1 :=
  ⟨⟨"json unmarshal error", rfl⟩, by decide⟩

/-- C9 (amended): when `UnmarshalJSON` fails to parse its input it
returns an error and leaves the receiver in the cleared state (bit value
0) produced by the initial `Clear()` — a deterministic state independent
of the input, with no token bit applied — rather than the receiver's
pre-call value. -/
theorem unmarshalJSON_error_state (m : TransactionFlags) (input : Option (List String))
    (h : (m.unmarshalJSON input).2.isSome = true) :
    (m.unmarshalJSON input).1.Bits = 0 := by
  cases input with
  | none => rfl
  | some s => simp [TransactionFlags.unmarshalJSON] at h

/-- Witness for C9 (amended): malformed input leaves a previously
populated receiver cleared. -/
theorem unmarshalJSON_error_state_witness :
    (TransactionFlags.unmarshalJSON (NewTransactionFlagsFromBits 9) none).1.Bits = 0 :=
  unmarshalJSON_error_state (NewTransactionFlagsFromBits 9) none rfl

/-- C10: promotion by `ExternalTransaction.ToTransaction` preserves the
signing hash — the promoted transaction's `SigningHash` equals the
external transaction's `SigningHash` — so the `AuthData` copied into
`Signature` still signs the promoted transaction's signing hash. -/
theorem externalToTransaction_signingHash (x : ExternalTransaction) :
    x.ToTransaction.SigningHash = x.SigningHash ∧
      x.ToTransaction.Signature = x.AuthData :=
  ⟨rfl, rfl⟩

end NilTypes
